import Mathlib

/-!
Verification of the fan-control policy engine and control loop of
`fan_control.py` (TopAgrume/raspberry-fan-control).

Temperatures and duty cycles are embedded as exact rationals (`ℚ`): the
Python program performs only comparisons, one subtraction-based linear ramp
and one true division per tick, and every concrete value appearing in the
specification is exactly representable, so `ℚ` is a faithful shallow
embedding of the float arithmetic. Python's `ZeroDivisionError` is embedded
as `Option.none`.
-/

namespace FanControl

/-- Configurable activation constants, `fan_control.py` lines 14-27. -/
def DEFAULT_WAIT_TIME : ℕ := 10

/-- Default PWM frequency, line 17. -/
def DEFAULT_PWM_FREQ : ℕ := 10000

/-- Default minimum activation temperature, line 20. -/
def DEFAULT_MIN_TEMP : ℚ := 55

/-- Default cooldown-release temperature, line 21 (`DEFAULT_MIN_TEMP_COLLING`). -/
def DEFAULT_MIN_TEMP_COLLING : ℚ := 50

/-- Default maximum-ramp temperature, line 23. -/
def DEFAULT_MAX_TEMP : ℚ := 75

/-- Hard-coded low fan duty, line 24. -/
def DEFAULT_FAN_LOW : ℚ := 50

/-- Hard-coded high fan duty, line 25. -/
def DEFAULT_FAN_HIGH : ℚ := 100

/-- Hard-coded off duty, line 26. -/
def DEFAULT_FAN_OFF : ℚ := 0

/-- Hard-coded maximum duty, line 27. -/
def DEFAULT_FAN_MAX : ℚ := 100

/-- The configuration values consumed by the policy (`args.min_temp`,
`args.min_cool_temp`, `args.max_temp`, `args.fan_low`, `args.fan_high` from
`arguments_parsing` / `config_parsing`, lines 143-185). -/
structure FanConfig where
  min_temp : ℚ
  min_cool_temp : ℚ
  max_temp : ℚ
  fan_low : ℚ
  fan_high : ℚ
deriving DecidableEq, Repr

/-- The validity constraints on a configuration stated by the data model:
threshold ordering `min_cool_temp < min_temp < max_temp` and duty-cycle
bounds `0 ≤ fan_low ≤ fan_high ≤ 100`. -/
def validConfig (cfg : FanConfig) : Prop :=
  cfg.min_cool_temp < cfg.min_temp ∧ cfg.min_temp < cfg.max_temp ∧
    0 ≤ cfg.fan_low ∧ cfg.fan_low ≤ cfg.fan_high ∧ cfg.fan_high ≤ 100

instance : DecidablePred validConfig := fun cfg => by
  unfold validConfig; infer_instance

/-- From `arguments_parsing` (lines 143-161) and `config_parsing`
(lines 163-185): the startup path parses integer values for the thresholds
and duty bounds but performs no validation whatsoever of threshold ordering
or duty-cycle bounds, so every configuration is accepted and the process
starts. -/
def config_accepted (_cfg : FanConfig) : Bool := true

/-- The policy engine: `handle_fan_speed` (lines 66-100), with the I/O
factored out. Input: the configuration, the temperature just read
(`curr_temp`) and the global latch `REMAIN_ACTIVATED`; output: the duty
cycle passed to `set_fan_speed` together with the updated latch, or `none`
when the Python code raises `ZeroDivisionError` (which happens exactly in
the final branch when `max_temp - min_temp = 0`). -/
def handle_fan_speed (cfg : FanConfig) (curr_temp : ℚ) (remain_activated : Bool) :
    Option (ℚ × Bool) :=
  -- line 77: `if not REMAIN_ACTIVATED and curr_temp < args.min_temp: ... return`
  if remain_activated = false ∧ curr_temp < cfg.min_temp then
    some (DEFAULT_FAN_OFF, remain_activated)
  -- line 81 sets `REMAIN_ACTIVATED = 1`; line 83: `if curr_temp < args.min_cool_temp`
  else if curr_temp < cfg.min_cool_temp then
    some (DEFAULT_FAN_OFF, false)
  -- line 88: `elif curr_temp < args.min_temp` — note the constant `DEFAULT_FAN_LOW`
  else if curr_temp < cfg.min_temp then
    some (DEFAULT_FAN_LOW, true)
  -- line 92: `elif curr_temp > args.max_temp` — note the constant `DEFAULT_FAN_MAX`
  else if cfg.max_temp < curr_temp then
    some (DEFAULT_FAN_MAX, true)
  -- line 97: the division raises `ZeroDivisionError` when `max_temp == min_temp`
  else if cfg.max_temp - cfg.min_temp = 0 then
    none
  -- lines 97-99: `adaptive_percentage = (curr_temp - min_temp) / (max_temp - min_temp)`,
  -- `fan_activation_range = fan_high - fan_low`, `new_speed = fan_low + range * percentage`
  else
    some (cfg.fan_low +
      (cfg.fan_high - cfg.fan_low) * ((curr_temp - cfg.min_temp) / (cfg.max_temp - cfg.min_temp)),
      true)

/-- The default configuration assembled by `arguments_parsing` when no flag
or config file overrides anything. -/
def cfgDefault : FanConfig :=
  { min_temp := 55, min_cool_temp := 50, max_temp := 75, fan_low := 50, fan_high := 100 }

/-- From `get_cpu_temperature` (lines 30-45): the raw millidegree sensor
reading is divided by 1000; an `IOError` from the sensor file is logged and
re-raised unchanged (the `raise` on line 45), embedded as `Except.error`
propagation. -/
def get_cpu_temperature (sensor : Except Unit ℚ) : Except Unit ℚ :=
  match sensor with
  | Except.ok raw => Except.ok (raw / 1000)
  | Except.error e => Except.error e

/-- From `set_fan_speed` (lines 47-64): the duty value is forwarded to
`lgpio.tx_pwm`; an `lgpio.error` from the hardware call is logged and
re-raised unchanged (the `raise` on line 64), embedded as `Except.error`
propagation. On success the commanded duty is returned for observation. -/
def set_fan_speed (pwm : Except Unit Unit) (speed : ℚ) : Except Unit ℚ :=
  match pwm with
  | Except.ok _ => Except.ok speed
  | Except.error e => Except.error e

/-- The mutable global state a tick of `handle_fan_speed` touches: the
`REMAIN_ACTIVATED` latch (line 22, mutated on lines 81 and 85) and the
append-only logging stream written by `set_fan_speed` (line 61), recorded
as (duty, temperature) pairs. -/
structure ControllerState where
  remain_activated : Bool
  log : List (ℚ × ℚ)
deriving DecidableEq, Repr

/-- One tick of `handle_fan_speed` acting on the global state: the policy
is evaluated on the current latch, the commanded duty is appended to the
log and the latch is updated; `none` when the tick raises. -/
def tick (cfg : FanConfig) (curr_temp : ℚ) (s : ControllerState) : Option ControllerState :=
  match handle_fan_speed cfg curr_temp s.remain_activated with
  | none => none
  | some (duty, act) =>
      some { remain_activated := act, log := s.log ++ [(duty, curr_temp)] }

/-- The observable outcome of one iteration of the `while True` loop in
`main` (lines 132-134): either the tick completed (temperature read and PWM
write both succeeded), or `get_cpu_temperature` raised `IOError`, or
`set_fan_speed` raised `lgpio.error`, or a `KeyboardInterrupt` arrived
during the tick or the sleep. -/
inductive TickOutcome where
  | ok
  | sensorErr
  | pwmErr
  | interrupt
deriving DecidableEq, Repr

/-- How `main` (lines 117-141) left the loop: still looping, graceful exit
via the `KeyboardInterrupt` handler (line 135), or fatal exit via the
generic `Exception` handler that raises `SystemExit(1)` (lines 137-139). -/
inductive ExitKind where
  | running
  | graceful
  | fatal
deriving DecidableEq, Repr

/-- The observable behaviour of a run of `main`'s loop: how many loop
iterations started a tick, how many times the `finally` block invoked
`shutdown` (line 141), and how the loop exited. -/
structure LoopRun where
  ticks_attempted : ℕ
  shutdown_calls : ℕ
  exit : ExitKind
deriving DecidableEq, Repr

/-- The `try`/`while True`/`except`/`finally` structure of `main`
(lines 127-141), run against a finite prefix of per-iteration I/O outcomes.
An `ok` outcome completes `handle_fan_speed` plus `time.sleep` and loops; a
raised `IOError` or `lgpio.error` propagates out of the tick uncaught until
the `except Exception` handler, ending the loop with `SystemExit(1)` after
the `finally` block runs `shutdown` once; a `KeyboardInterrupt` ends it
gracefully, again running `shutdown` once. If the outcome prefix is
exhausted the loop is still running and `shutdown` has not been invoked. -/
def mainRun : List TickOutcome → LoopRun
  | [] => { ticks_attempted := 0, shutdown_calls := 0, exit := ExitKind.running }
  | TickOutcome.ok :: rest =>
      let r := mainRun rest
      { ticks_attempted := r.ticks_attempted + 1, shutdown_calls := r.shutdown_calls,
        exit := r.exit }
  | TickOutcome.interrupt :: _ =>
      { ticks_attempted := 1, shutdown_calls := 1, exit := ExitKind.graceful }
  | TickOutcome.sensorErr :: _ =>
      { ticks_attempted := 1, shutdown_calls := 1, exit := ExitKind.fatal }
  | TickOutcome.pwmErr :: _ =>
      { ticks_attempted := 1, shutdown_calls := 1, exit := ExitKind.fatal }

/-- Behaviour of the external collaborators during one `shutdown` call:
whether the final `set_fan_speed` PWM write raises, and whether
`lgpio.gpiochip_close` raises. -/
structure ShutdownEnv where
  pwm_write_fails : Bool
  close_fails : Bool
deriving DecidableEq, Repr

/-- What one `shutdown` call did: the duty values it passed to
`set_fan_speed`, how many times it invoked `lgpio.gpiochip_close`, and
whether an exception escaped it. -/
structure ShutdownResult where
  duty_attempts : List ℚ
  close_calls : ℕ
  raised : Bool
deriving DecidableEq, Repr

/-- From `shutdown` (lines 103-115): inside a `try` block it calls
`set_fan_speed(fan, DEFAULT_FAN_LOW, args.min_temp)` — the hard-coded
constant, not `args.fan_low` — then `lgpio.gpiochip_close(fan)`; the
`except Exception` handler (lines 114-115) logs any failure of either call
and never re-raises. The configuration is in scope (the global `args`) but
only `args.min_temp` is read, as the logged temperature. -/
def shutdown (_cfg : FanConfig) (env : ShutdownEnv) : ShutdownResult :=
  if env.pwm_write_fails then
    -- the write raises: close is never reached, the exception is swallowed
    { duty_attempts := [DEFAULT_FAN_LOW], close_calls := 0, raised := false }
  else
    -- the write succeeds; close is invoked once and any failure is swallowed
    { duty_attempts := [DEFAULT_FAN_LOW], close_calls := 1, raised := false }

/-! ## Helper lemmas shared between claims -/

/-- With a valid configuration and `min_temp ≤ t ≤ max_temp`, the policy
reaches the final linear-ramp branch, whatever the latch. -/
theorem handle_ramp_eval (cfg : FanConfig) (h : validConfig cfg) (t : ℚ) (a : Bool)
    (h1 : cfg.min_temp ≤ t) (h2 : t ≤ cfg.max_temp) :
    handle_fan_speed cfg t a =
      some (cfg.fan_low +
        (cfg.fan_high - cfg.fan_low) * ((t - cfg.min_temp) / (cfg.max_temp - cfg.min_temp)),
        true) := by
  obtain ⟨hcm, hmx, -⟩ := h
  unfold handle_fan_speed
  rw [if_neg (fun hc => absurd hc.2 (not_lt.mpr h1)),
    if_neg (not_lt.mpr (le_of_lt (lt_of_lt_of_le hcm h1))),
    if_neg (not_lt.mpr h1), if_neg (not_lt.mpr h2),
    if_neg (sub_ne_zero_of_ne (ne_of_gt hmx))]

/-- In the linear-ramp region of a valid configuration, the ramp value is
between `fan_low` and `fan_high`. -/
theorem ramp_duty_bounds (cfg : FanConfig) (h : validConfig cfg) (t : ℚ)
    (h1 : cfg.min_temp ≤ t) (h2 : t ≤ cfg.max_temp) :
    cfg.fan_low ≤ cfg.fan_low +
        (cfg.fan_high - cfg.fan_low) * ((t - cfg.min_temp) / (cfg.max_temp - cfg.min_temp)) ∧
      cfg.fan_low +
        (cfg.fan_high - cfg.fan_low) * ((t - cfg.min_temp) / (cfg.max_temp - cfg.min_temp)) ≤
        cfg.fan_high := by
  obtain ⟨hcm, hmx, hl0, hlh, hh100⟩ := h
  have hd : (0 : ℚ) < cfg.max_temp - cfg.min_temp := sub_pos.mpr hmx
  have hr0 : (0 : ℚ) ≤ (t - cfg.min_temp) / (cfg.max_temp - cfg.min_temp) :=
    div_nonneg (sub_nonneg.mpr h1) hd.le
  have hr1 : (t - cfg.min_temp) / (cfg.max_temp - cfg.min_temp) ≤ 1 :=
    (div_le_one hd).mpr (by linarith)
  have hrange : (0 : ℚ) ≤ cfg.fan_high - cfg.fan_low := sub_nonneg.mpr hlh
  constructor
  · exact le_add_of_nonneg_right (mul_nonneg hrange hr0)
  · have hmul : (cfg.fan_high - cfg.fan_low) * ((t - cfg.min_temp) / (cfg.max_temp - cfg.min_temp)) ≤
        cfg.fan_high - cfg.fan_low := mul_le_of_le_one_right hrange hr1
    linarith

/-! ## Claims -/

/-- C1: the low-speed band is claimed to emit the configured `fan_low` for
every valid configuration, including `fan_low ≠ 50`. The code instead emits
the hard-coded constant `DEFAULT_FAN_LOW = 50` (line 89). With
`fan_low = 30`, a latched tick at 52 °C (inside the low band) emits 50, not
the configured 30 — and the hotter reading 55 °C (ramp start, which does
honour `args.fan_low`) emits only 30, a non-monotone dip that exposes the
slip. -/
theorem C1_low_band_ignores_configured_fan_low :
    handle_fan_speed ⟨55, 50, 75, 30, 100⟩ 52 true = some (DEFAULT_FAN_LOW, true) ∧
      handle_fan_speed ⟨55, 50, 75, 30, 100⟩ 55 true = some (30, true) ∧
      DEFAULT_FAN_LOW ≠ (30 : ℚ) := by
  refine ⟨?_, ?_, ?_⟩
  · norm_num [handle_fan_speed, DEFAULT_FAN_LOW]
  · norm_num [handle_fan_speed, DEFAULT_FAN_LOW]
  · norm_num [DEFAULT_FAN_LOW]

/-- C2: the claim says a configuration with `max_temp = min_temp` is
rejected at startup so no tick ever divides by zero. The startup path
(`arguments_parsing` / `config_parsing`) performs no validation, so the
configuration is accepted, and a latched tick at exactly `min_temp` then
raises `ZeroDivisionError` (line 97), modelled as `none`. -/
theorem C2_no_startup_validation_division_by_zero :
    config_accepted ⟨55, 50, 55, 50, 100⟩ = true ∧
      handle_fan_speed ⟨55, 50, 55, 50, 100⟩ 55 true = none := by
  refine ⟨rfl, ?_⟩
  norm_num [handle_fan_speed]

/-- C3: for every valid configuration, the updated latch after a tick is
exactly `(activated ∨ temperature ≥ min_temp) ∧ temperature ≥
min_cool_temp`: from idle it engages exactly at `min_temp` and above, from
engaged it releases exactly below `min_cool_temp`. -/
theorem C3_latch_update (cfg : FanConfig) (h : validConfig cfg) (t : ℚ) (a : Bool) :
    (handle_fan_speed cfg t a).map Prod.snd =
      some ((a || decide (cfg.min_temp ≤ t)) && decide (cfg.min_cool_temp ≤ t)) := by
  obtain ⟨hcm, hmx, -⟩ := h
  unfold handle_fan_speed
  split_ifs with h1 h2 h3 h4 h5
  · obtain ⟨ha, ht⟩ := h1
    subst ha
    simp [decide_eq_false (not_le.mpr ht)]
  · simp [decide_eq_false (not_le.mpr h2)]
  · cases a with
    | false => exact absurd ⟨rfl, h3⟩ h1
    | true => simp [decide_eq_true (le_of_not_lt h2)]
  · have hmin : cfg.min_temp ≤ t := le_of_lt (lt_trans hmx h4)
    simp [decide_eq_true hmin, decide_eq_true (le_of_not_lt h2)]
  · exact absurd h5 (sub_ne_zero_of_ne (ne_of_gt hmx))
  · simp [decide_eq_true (le_of_not_lt h3), decide_eq_true (le_of_not_lt h2)]

/-- Witness for C3 at the default configuration, 60 °C, idle latch. -/
theorem C3_latch_update_witness :
    validConfig cfgDefault ∧
      (handle_fan_speed cfgDefault 60 false).map Prod.snd =
        some ((false || decide (cfgDefault.min_temp ≤ 60)) &&
          decide (cfgDefault.min_cool_temp ≤ 60)) :=
  ⟨by norm_num [validConfig, cfgDefault],
    C3_latch_update cfgDefault (by norm_num [validConfig, cfgDefault]) 60 false⟩

/-- C4: for every valid configuration, every temperature and every latch
value, a tick succeeds and emits a duty cycle in `[0, 100]`. -/
theorem C4_duty_in_unit_range (cfg : FanConfig) (h : validConfig cfg) (t : ℚ) (a : Bool) :
    ∃ d a2, handle_fan_speed cfg t a = some (d, a2) ∧ 0 ≤ d ∧ d ≤ 100 := by
  obtain ⟨hcm, hmx, hl0, hlh, hh100⟩ := h
  by_cases hlo : cfg.min_temp ≤ t
  · by_cases hhi : t ≤ cfg.max_temp
    · refine ⟨_, true, handle_ramp_eval cfg ⟨hcm, hmx, hl0, hlh, hh100⟩ t a hlo hhi, ?_, ?_⟩
      · have := (ramp_duty_bounds cfg ⟨hcm, hmx, hl0, hlh, hh100⟩ t hlo hhi).1
        linarith
      · have := (ramp_duty_bounds cfg ⟨hcm, hmx, hl0, hlh, hh100⟩ t hlo hhi).2
        linarith
    · -- saturation branch, duty = DEFAULT_FAN_MAX = 100
      have ht : cfg.max_temp < t := lt_of_not_le hhi
      refine ⟨DEFAULT_FAN_MAX, true, ?_, by norm_num [DEFAULT_FAN_MAX], by norm_num [DEFAULT_FAN_MAX]⟩
      unfold handle_fan_speed
      rw [if_neg (fun hc => absurd hc.2 (not_lt.mpr hlo)),
        if_neg (not_lt.mpr (le_of_lt (lt_of_lt_of_le hcm hlo))),
        if_neg (not_lt.mpr hlo), if_pos ht]
  · -- below min_temp: idle hold, cooldown, or low band
    have ht : t < cfg.min_temp := lt_of_not_le hlo
    unfold handle_fan_speed
    split_ifs with h1 h2
    · exact ⟨DEFAULT_FAN_OFF, a, rfl, by norm_num [DEFAULT_FAN_OFF], by norm_num [DEFAULT_FAN_OFF]⟩
    · exact ⟨DEFAULT_FAN_OFF, false, rfl, by norm_num [DEFAULT_FAN_OFF], by norm_num [DEFAULT_FAN_OFF]⟩
    · exact ⟨DEFAULT_FAN_LOW, true, rfl, by norm_num [DEFAULT_FAN_LOW], by norm_num [DEFAULT_FAN_LOW]⟩

/-- Witness for C4 at the default configuration, 65 °C, engaged latch. -/
theorem C4_duty_in_unit_range_witness :
    validConfig cfgDefault ∧
      ∃ d a2, handle_fan_speed cfgDefault 65 true = some (d, a2) ∧ 0 ≤ d ∧ d ≤ 100 :=
  ⟨by norm_num [validConfig, cfgDefault],
    C4_duty_in_unit_range cfgDefault (by norm_num [validConfig, cfgDefault]) 65 true⟩

/-- C5: in the linear-ramp region of any valid configuration (engaged
latch, `min_temp ≤ t ≤ max_temp`) the emitted duty is exactly
`fan_low + (fan_high − fan_low) · (t − min_temp) / (max_temp − min_temp)`,
lying in `[fan_low, fan_high]`; with the default thresholds a latched tick
at 65 °C emits exactly 75. -/
theorem C5_linear_ramp :
    (∀ (cfg : FanConfig) (t : ℚ), validConfig cfg → cfg.min_temp ≤ t → t ≤ cfg.max_temp →
      handle_fan_speed cfg t true =
        some (cfg.fan_low +
          (cfg.fan_high - cfg.fan_low) * ((t - cfg.min_temp) / (cfg.max_temp - cfg.min_temp)),
          true) ∧
      cfg.fan_low ≤ cfg.fan_low +
        (cfg.fan_high - cfg.fan_low) * ((t - cfg.min_temp) / (cfg.max_temp - cfg.min_temp)) ∧
      cfg.fan_low +
        (cfg.fan_high - cfg.fan_low) * ((t - cfg.min_temp) / (cfg.max_temp - cfg.min_temp)) ≤
        cfg.fan_high) ∧
    handle_fan_speed cfgDefault 65 true = some (75, true) := by
  constructor
  · intro cfg t h h1 h2
    exact ⟨handle_ramp_eval cfg h t true h1 h2, (ramp_duty_bounds cfg h t h1 h2).1,
      (ramp_duty_bounds cfg h t h1 h2).2⟩
  · norm_num [handle_fan_speed, cfgDefault]

/-- Witness for C5 at the default configuration, 65 °C. -/
theorem C5_linear_ramp_witness :
    handle_fan_speed cfgDefault 65 true =
      some (cfgDefault.fan_low +
        (cfgDefault.fan_high - cfgDefault.fan_low) *
          ((65 - cfgDefault.min_temp) / (cfgDefault.max_temp - cfgDefault.min_temp)),
        true) ∧
    cfgDefault.fan_low ≤ cfgDefault.fan_low +
      (cfgDefault.fan_high - cfgDefault.fan_low) *
        ((65 - cfgDefault.min_temp) / (cfgDefault.max_temp - cfgDefault.min_temp)) ∧
    cfgDefault.fan_low +
      (cfgDefault.fan_high - cfgDefault.fan_low) *
        ((65 - cfgDefault.min_temp) / (cfgDefault.max_temp - cfgDefault.min_temp)) ≤
      cfgDefault.fan_high :=
  C5_linear_ramp.1 cfgDefault 65 (by norm_num [validConfig, cfgDefault])
    (by norm_num [cfgDefault]) (by norm_num [cfgDefault])

/-- C6 counterexample: the claim says shutdown sets the duty cycle to the
configured `fan_low`. With `fan_low = 30` the shutdown path commands the
hard-coded constant `DEFAULT_FAN_LOW = 50` (line 111), not the configured
value. -/
theorem C6_shutdown_counterexample :
    (shutdown ⟨55, 50, 75, 30, 100⟩ ⟨false, false⟩).duty_attempts = [DEFAULT_FAN_LOW] ∧
      (shutdown ⟨55, 50, 75, 30, 100⟩ ⟨false, false⟩).duty_attempts ≠
        [FanConfig.fan_low ⟨55, 50, 75, 30, 100⟩] := by
  refine ⟨rfl, ?_⟩
  norm_num [shutdown, DEFAULT_FAN_LOW]

/-- C6 as amended: shutdown commands the constant duty `DEFAULT_FAN_LOW`
(50) and then releases the PWM resource; it runs exactly once on every loop
exit path (cancellation or error), and any exception raised inside shutdown
itself is logged and suppressed, never re-raised. -/
theorem C6_shutdown_behaviour :
    (∀ (cfg : FanConfig) (env : ShutdownEnv),
      (shutdown cfg env).raised = false ∧
      (shutdown cfg env).duty_attempts = [DEFAULT_FAN_LOW] ∧
      (env.pwm_write_fails = false → (shutdown cfg env).close_calls = 1)) ∧
    (∀ outs : List TickOutcome,
      (mainRun outs).exit ≠ ExitKind.running → (mainRun outs).shutdown_calls = 1) := by
  constructor
  · intro cfg env
    refine ⟨?_, ?_, ?_⟩ <;> cases he : env.pwm_write_fails <;> simp [shutdown, he]
  · intro outs
    induction outs with
    | nil => intro hx; exact absurd rfl hx
    | cons head tail ih =>
        cases head with
        | ok => intro hx; exact ih hx
        | sensorErr => intro _; rfl
        | pwmErr => intro _; rfl
        | interrupt => intro _; rfl

/-- Witness for C6 as amended: a failure-free shutdown with the default
configuration, and a loop ended by a keyboard interrupt. -/
theorem C6_shutdown_behaviour_witness :
    (shutdown cfgDefault ⟨false, false⟩).raised = false ∧
      (mainRun [TickOutcome.interrupt]).shutdown_calls = 1 :=
  ⟨(C6_shutdown_behaviour.1 cfgDefault ⟨false, false⟩).1,
    C6_shutdown_behaviour.2 [TickOutcome.interrupt] (by decide)⟩

/-- C7: a raised temperature-read or PWM-write error propagates out of the
tick unchanged (the `raise` statements on lines 45 and 64), and in the
loop the first failing iteration is the last: the run's outcome is
independent of any outcomes that would have followed (no retry, no further
tick), the exit is fatal and shutdown is triggered exactly once. -/
theorem C7_fatal_io_failure :
    (∀ e, get_cpu_temperature (Except.error e) = Except.error e) ∧
    (∀ (e : Unit) (s : ℚ), set_fan_speed (Except.error e) s = Except.error e) ∧
    (∀ (pre post : List TickOutcome) (e : TickOutcome),
      (∀ x ∈ pre, x = TickOutcome.ok) →
      (e = TickOutcome.sensorErr ∨ e = TickOutcome.pwmErr) →
      mainRun (pre ++ e :: post) =
        { ticks_attempted := pre.length + 1, shutdown_calls := 1, exit := ExitKind.fatal }) := by
  refine ⟨fun e => rfl, fun e s => rfl, ?_⟩
  intro pre post e
  induction pre with
  | nil =>
      intro _ he
      rcases he with h | h <;> subst h <;> rfl
  | cons x xs ih =>
      intro hpre he
      have hx : x = TickOutcome.ok := hpre x (List.mem_cons_self x xs)
      subst hx
      have ih2 := ih (fun y hy => hpre y (List.mem_cons_of_mem _ hy)) he
      simp [mainRun, ih2]

/-- Witness for C7: one good tick, then a sensor failure, with two further
outcomes that are never consumed. -/
theorem C7_fatal_io_failure_witness :
    get_cpu_temperature (Except.error ()) = Except.error () ∧
      mainRun ([TickOutcome.ok] ++ TickOutcome.sensorErr :: [TickOutcome.ok, TickOutcome.ok]) =
        { ticks_attempted := [TickOutcome.ok].length + 1, shutdown_calls := 1,
          exit := ExitKind.fatal } :=
  ⟨C7_fatal_io_failure.1 (),
    C7_fatal_io_failure.2.2 [TickOutcome.ok] [TickOutcome.ok, TickOutcome.ok]
      TickOutcome.sensorErr (by decide) (Or.inl rfl)⟩

/-- C8: for every valid configuration, a tick at exactly `min_temp` with
the latch disengaged engages the latch and emits the configured `fan_low`
(the ramp branch is taken, whose value at `min_temp` is `fan_low`). -/
theorem C8_min_temp_boundary (cfg : FanConfig) (h : validConfig cfg) :
    handle_fan_speed cfg cfg.min_temp false = some (cfg.fan_low, true) := by
  have hmx : cfg.min_temp < cfg.max_temp := h.2.1
  have he := handle_ramp_eval cfg h cfg.min_temp false le_rfl hmx.le
  rw [he, sub_self, zero_div, mul_zero, add_zero]

/-- Witness for C8 at the default configuration. -/
theorem C8_min_temp_boundary_witness :
    validConfig cfgDefault ∧
      handle_fan_speed cfgDefault cfgDefault.min_temp false =
        some (cfgDefault.fan_low, true) :=
  ⟨by norm_num [validConfig, cfgDefault],
    C8_min_temp_boundary cfgDefault (by norm_num [validConfig, cfgDefault])⟩

/-- C9: the tick is deterministic and touches no state besides the latch
and the append-only log: two states agreeing on the latch produce the same
new latch and the same appended log entry, and the previous log content is
preserved with exactly one (duty, temperature) pair appended. -/
theorem C9_tick_deterministic (cfg : FanConfig) (t : ℚ) (s₁ s₂ : ControllerState)
    (h : s₁.remain_activated = s₂.remain_activated) :
    (tick cfg t s₁).map ControllerState.remain_activated =
      (tick cfg t s₂).map ControllerState.remain_activated ∧
    (tick cfg t s₁).map (fun s => s.log.drop s₁.log.length) =
      (tick cfg t s₂).map (fun s => s.log.drop s₂.log.length) ∧
    ∀ s3, tick cfg t s₁ = some s3 → ∃ d, s3.log = s₁.log ++ [(d, t)] := by
  unfold tick
  rw [h]
  cases hfs : handle_fan_speed cfg t s₂.remain_activated with
  | none => simp
  | some p =>
      obtain ⟨d, act⟩ := p
      refine ⟨rfl, ?_, ?_⟩
      · simp
      · intro s3 hs3
        exact ⟨d, by rw [← Option.some.inj hs3]⟩

/-- Witness for C9: two states with the same latch but different logs. -/
theorem C9_tick_deterministic_witness :
    (tick cfgDefault 60 ⟨false, []⟩).map ControllerState.remain_activated =
      (tick cfgDefault 60 ⟨false, [(0, 10)]⟩).map ControllerState.remain_activated ∧
    (tick cfgDefault 60 ⟨false, []⟩).map
        (fun s => s.log.drop (⟨false, []⟩ : ControllerState).log.length) =
      (tick cfgDefault 60 ⟨false, [(0, 10)]⟩).map
        (fun s => s.log.drop (⟨false, [(0, 10)]⟩ : ControllerState).log.length) ∧
    ∀ s3, tick cfgDefault 60 ⟨false, []⟩ = some s3 →
      ∃ d, s3.log = (⟨false, []⟩ : ControllerState).log ++ [(d, 60)] :=
  C9_tick_deterministic cfgDefault 60 ⟨false, []⟩ ⟨false, [(0, 10)]⟩ rfl

/-- C10: above `max_temp` the policy emits the hard-coded
`DEFAULT_FAN_MAX = 100` whatever the configured `fan_high` (line 93), so
any valid configuration with `fan_high < 100` has a temperature at which
the emitted duty strictly exceeds `fan_high`. -/
theorem C10_saturation_exceeds_fan_high :
    (∀ (cfg : FanConfig) (t : ℚ) (a : Bool), validConfig cfg → cfg.max_temp < t →
      handle_fan_speed cfg t a = some (DEFAULT_FAN_MAX, true)) ∧
    (∀ cfg : FanConfig, validConfig cfg → cfg.fan_high < 100 →
      ∃ (t : ℚ) (a : Bool) (d : ℚ) (a2 : Bool),
        handle_fan_speed cfg t a = some (d, a2) ∧ cfg.fan_high < d) := by
  have hsat : ∀ (cfg : FanConfig) (t : ℚ) (a : Bool), validConfig cfg → cfg.max_temp < t →
      handle_fan_speed cfg t a = some (DEFAULT_FAN_MAX, true) := by
    intro cfg t a h ht
    obtain ⟨hcm, hmx, -⟩ := h
    have hminlt : cfg.min_temp < t := lt_trans hmx ht
    unfold handle_fan_speed
    rw [if_neg (fun hc => absurd hc.2 (not_lt.mpr hminlt.le)),
      if_neg (not_lt.mpr (le_of_lt (lt_trans hcm hminlt))),
      if_neg (not_lt.mpr hminlt.le), if_pos ht]
  refine ⟨hsat, ?_⟩
  intro cfg h hf
  exact ⟨cfg.max_temp + 1, true, DEFAULT_FAN_MAX, true,
    hsat cfg (cfg.max_temp + 1) true h (lt_add_one _), by simpa [DEFAULT_FAN_MAX] using hf⟩

/-- Witness for C10 with `fan_high = 90`, at 80 °C. -/
theorem C10_saturation_witness :
    handle_fan_speed ⟨55, 50, 75, 50, 90⟩ 80 true = some (DEFAULT_FAN_MAX, true) ∧
      ∃ (t : ℚ) (a : Bool) (d : ℚ) (a2 : Bool),
        handle_fan_speed ⟨55, 50, 75, 50, 90⟩ t a = some (d, a2) ∧
          FanConfig.fan_high ⟨55, 50, 75, 50, 90⟩ < d :=
  ⟨C10_saturation_exceeds_fan_high.1 ⟨55, 50, 75, 50, 90⟩ 80 true
      (by norm_num [validConfig]) (by norm_num),
    C10_saturation_exceeds_fan_high.2 ⟨55, 50, 75, 50, 90⟩
      (by norm_num [validConfig]) (by norm_num)⟩

end FanControl
